import Mathlib

/-!
Verification development for the live-transcription subsystem of the
translate_transcribe repository.

Shallow embedding of:
- backend/app/api/websocket_transcribe.py (the active code, lines 136-263):
  transcribe_chunk, process_chunk, the sender loop, the session shutdown
  sequence, and the dual-window byte-buffer management of the ingest loop;
- backend/app/core/language_codes.py: the LanguageConverter pivot design.

Python byte strings are modelled as List Nat (one entry per byte); numpy
int16 reinterpretation pairs consecutive bytes.  Exceptions are modelled by
Except with an explicit exception-class datatype, because the source code
branches on the exception class (except ValueError / except RuntimeError /
except Exception).  The external langcodes library is not part of the
repository; the converter is therefore parameterized over an abstract
interface (LangLib), and a small concrete instance models the documented
behaviour of langcodes (parse failures raise LanguageTagError).
-/

namespace TranslateTranscribe

/-! ## Python exception classes that the source branches on -/

inductive PyExn where
  | valueError (msg : String)
  /-- langcodes.tag_parser.LanguageTagError, a subclass of ValueError. -/
  | languageTagError (msg : String)
  | runtimeError (msg : String)
  | otherExn (msg : String)
  deriving DecidableEq

/-- Class test corresponding to the Python clause `except ValueError`:
LanguageTagError is a ValueError subclass, so both are caught. -/
def PyExn.isValueError : PyExn → Bool
  | .valueError _ => true
  | .languageTagError _ => true
  | _ => false

/-- The Python str(e) of the exception. -/
def PyExn.msg : PyExn → String
  | .valueError m => m
  | .languageTagError m => m
  | .runtimeError m => m
  | .otherExn m => m

/-! ## language_codes.py: exception tables (module-level dicts) -/

def TESSERACT_EXCEPTIONS : List (String × String) :=
  [("zh-Hans", "chi_sim"), ("zh-Hant", "chi_tra"), ("nb", "nor")]

def LANGDETECT_EXCEPTIONS : List (String × String) :=
  [("zh-cn", "zh-Hans"), ("zh-tw", "zh-Hant")]

def LIBRETRANSLATE_EXCEPTIONS : List (String × String) :=
  [("zh-Hant", "zh"), ("zh-Hans", "zh"), ("pt-br", "pt"), ("nb", "no")]

/-- The dict comprehension in to_libre reverses LIBRETRANSLATE_EXCEPTIONS;
with duplicate values the later key wins, which for an association list
searched front to back means searching the reversed list. -/
def reverse_exceptions : List (String × String) :=
  (LIBRETRANSLATE_EXCEPTIONS.map (fun p => (p.2, p.1))).reverse

/-! ## Abstract interface of the external libraries used by language_codes.py -/

/-- The calls into the external langcodes and pycountry libraries that
language_codes.py makes.  Each call either returns a value or raises. -/
structure LangLib where
  /-- langcodes.standardize_tag -/
  standardize_tag : String → Except PyExn String
  /-- langcodes.get(code).language (None when the tag has no language part) -/
  get_language : String → Except PyExn (Option String)
  /-- pycountry.languages.get(alpha_2=code).alpha_3, None when not found -/
  pycountry_alpha3 : String → Except PyExn (Option String)

namespace LanguageConverter

/-- normalize_bcp47: try langcodes.standardize_tag, on any exception return
the input unchanged. -/
def normalize_bcp47 (lib : LangLib) (code : String) : String :=
  match lib.standardize_tag code with
  | .ok t => t
  | .error _ => code

/-- from_langdetect: exception-table lookup, else normalize. -/
def from_langdetect (lib : LangLib) (code : String) : String :=
  match LANGDETECT_EXCEPTIONS.lookup code with
  | some v => v
  | none => normalize_bcp47 lib code

/-- to_libre: reverse exception-table lookup, else normalize. -/
def to_libre (lib : LangLib) (code : String) : String :=
  match reverse_exceptions.lookup code with
  | some v => v
  | none => normalize_bcp47 lib code

/-- to_whisper: exception-table lookup, else langcodes.get — the one library
call in this module that is NOT wrapped in a try/except, so its parse
failure propagates to the caller. -/
def to_whisper (lib : LangLib) (code : String) : Except PyExn String :=
  match LIBRETRANSLATE_EXCEPTIONS.lookup code with
  | some v => .ok v
  | none =>
    match lib.get_language code with
    | .error e => .error e
    | .ok langOpt =>
      .ok (match langOpt with
        | some l => if l = "" then code else l
        | none => code)

/-- to_tesseract: exception tables, then pycountry inside a try/except that
returns None on any exception. -/
def to_tesseract (lib : LangLib) (code : String) : Option String :=
  match TESSERACT_EXCEPTIONS.lookup code with
  | some v => some v
  | none =>
    let code2 := match LIBRETRANSLATE_EXCEPTIONS.lookup code with
      | some v => v
      | none => code
    match lib.pycountry_alpha3 code2 with
    | .ok v => v
    | .error _ => none

/-- to_bcp47 -/
def to_bcp47 (lib : LangLib) (code : String) : String :=
  normalize_bcp47 lib code

/-- LanguageConverter.convert: pivot through step 1 (input vocabulary to the
normalized form) then step 2 (normalized form to output vocabulary).
Unsupported source names raise ValueError; the whisper output path can
propagate a parse failure from to_whisper. -/
def convert (lib : LangLib) (code input_source output_source : String) :
    Except PyExn (Option String) :=
  match (if input_source = "langdetect" then .ok (from_langdetect lib code)
    else if input_source = "libretranslate" then .ok (normalize_bcp47 lib code)
    else if input_source = "whisper" then .ok (normalize_bcp47 lib code)
    else if input_source = "bcp47" then .ok (normalize_bcp47 lib code)
    else .error (PyExn.valueError ("Unsupported input source: " ++ input_source)) :
      Except PyExn String) with
  | .error e => .error e
  | .ok libre =>
    if output_source = "libretranslate" then .ok (some (to_libre lib libre))
    else if output_source = "whisper" then (to_whisper lib libre).map some
    else if output_source = "tesseract" then .ok (to_tesseract lib libre)
    else if output_source = "bcp47" then .ok (some (to_bcp47 lib libre))
    else .error (PyExn.valueError ("Unsupported output source: " ++ output_source))

end LanguageConverter

/-! ## Concrete model of the external langcodes library -/

/-- Split a character list at the hyphen separators (BCP-47 subtags). -/
def splitHyphens : List Char → List (List Char)
  | [] => [[]]
  | c :: rest =>
    let r := splitHyphens rest
    if c = '-' then [] :: r
    else
      match r with
      | [] => [[c]]
      | g :: gs => (c :: g) :: gs

def tagSubtags (s : String) : List (List Char) :=
  splitHyphens s.toList

/-- Syntactic well-formedness of a language tag: a leading alphabetic
language subtag of two to eight letters, followed by alphanumeric subtags.
This is the (simplified) syntax the langcodes tag parser accepts; anything
else makes it raise LanguageTagError. -/
def wellFormedTag (s : String) : Bool :=
  match tagSubtags s with
  | [] => false
  | t :: rest =>
    (decide (2 ≤ t.length) && decide (t.length ≤ 8) && t.all Char.isAlpha)
      && rest.all (fun r =>
          (decide (1 ≤ r.length) && decide (r.length ≤ 8))
            && r.all (fun c => c.isAlpha || c.isDigit))

/-- Canonical form produced by the model of standardize_tag: the language
subtag lowercased, remaining subtags kept. -/
def stdTag (s : String) : String :=
  match tagSubtags s with
  | [] => s
  | t :: rest => String.mk (List.intercalate ['-'] ((t.map Char.toLower) :: rest))

/-- Model of the external langcodes and pycountry libraries, which are not
part of this repository.  The facts this instance is used for are exactly
those documented for langcodes: standardize_tag and get succeed on
syntactically well-formed tags and raise LanguageTagError on malformed
input (the try/except in normalize_bcp47 exists precisely to catch that).
The pycountry lookup is modelled as total, which is all to_tesseract
relies on (it guards the call with its own try/except anyway). -/
def langcodesLib : LangLib where
  standardize_tag s :=
    if wellFormedTag s then .ok (stdTag s) else .error (.languageTagError s)
  get_language s :=
    if wellFormedTag s then
      .ok (some (String.mk (((tagSubtags s).headD []).map Char.toLower)))
    else .error (.languageTagError s)
  pycountry_alpha3 _ := .ok none

/-! ## websocket_transcribe.py constants (active code, lines 147-154) -/

def SAMPLE_RATE : Nat := 16000
def CHUNK_DURATION_SEC : Nat := 2
def RETRANSCRIBE_SEC : Nat := 10
def CHUNK_SIZE : Nat := SAMPLE_RATE * CHUNK_DURATION_SEC
/-- int(SAMPLE_RATE * OVERLAP_DURATION_SEC) with OVERLAP_DURATION_SEC = 0.1 -/
def OVERLAP_SIZE : Nat := 1600
def RETRANSCRIBE_SIZE : Nat := SAMPLE_RATE * RETRANSCRIBE_SEC

/-! ## The inference engine (faster-whisper model.transcribe), an external
collaborator invoked with an optional language hint.  An invocation either
returns the segment texts plus the detected language, or raises. -/

inductive EngOutcome where
  | ok (segments : List String) (language : String)
  | raise (e : PyExn)
  deriving DecidableEq

/-- The argument the source passes to the engine:
`language=isoLang if isoLang else None` (empty strings are falsy). -/
def truthyHint : Option String → Option String
  | some s => if s = "" then none else some s
  | none => none

/-- Python substring containment: needle in hay. -/
def containsSub (needle : List Char) : List Char → Bool
  | [] => needle.isEmpty
  | c :: rest => needle.isPrefixOf (c :: rest) || containsSub needle rest

/-- Python str.lower(), character by character. -/
def pyLower (s : String) : String :=
  String.mk (s.toList.map Char.toLower)

/-- The fallback test on line 168:
`"language" in str(e).lower() or "invalid language" in str(e).lower()`. -/
def mentionsLanguage (msg : String) : Bool :=
  containsSub "language".toList (pyLower msg).toList
    || containsSub "invalid language".toList (pyLower msg).toList

/-- The result dict of transcribe_chunk: text, language, optional error. -/
structure TResult where
  text : String
  language : Option String
  error : Option String
  deriving DecidableEq

/-- `" ".join([seg.text for seg in segments]).strip()` -/
def joinSegments (segs : List String) : String :=
  (String.intercalate " " segs).trim

/-- transcribe_chunk (lines 159-177).  The first component is the returned
result or the propagated exception; the second records the language
argument of every engine invocation, in order, so retry counts are
visible.  A ValueError whose message mentions the language triggers one
retry with no hint; a ValueError with any other message is re-raised; every
other exception yields an error dict with empty text.  An exception of the
retry itself propagates (it is raised inside the except handler). -/
def transcribe_chunk (engine : Option String → EngOutcome) (isoLang : Option String) :
    Except PyExn TResult × List (Option String) :=
  match engine (truthyHint isoLang) with
  | .ok segs lang => (.ok ⟨joinSegments segs, some lang, none⟩, [truthyHint isoLang])
  | .raise e =>
    if e.isValueError then
      if mentionsLanguage e.msg then
        match engine none with
        | .ok segs lang =>
          (.ok ⟨joinSegments segs, some lang, none⟩, [truthyHint isoLang, none])
        | .raise e2 => (.error e2, [truthyHint isoLang, none])
      else (.error e, [truthyHint isoLang])
    else (.ok ⟨"", isoLang, some e.msg⟩, [truthyHint isoLang])

/-! ## Outbound messages and the queue/sender model -/

/-- The structured outbound messages of the wire contract. -/
inductive Msg where
  /-- the partial_text / detected_lang / is_retranscribe dict -/
  | partialMsg (partial_text : String) (detected_lang : Option String)
      (is_retranscribe : Bool)
  /-- an error dict; the active code never constructs one -/
  | errorMsg (error : String)
  /-- the terminal event dict -/
  | done
  deriving DecidableEq

def Msg.isDone : Msg → Bool
  | .done => true
  | _ => false

/-- process_chunk (lines 188-202): transcribe, and if the text is non-empty
convert the detected language and enqueue one partial message.  Only
RuntimeError from the conversion is swallowed (`except RuntimeError: pass`);
any other exception, including one propagated out of transcribe_chunk,
escapes and faults the task.  The returned list holds the messages put on
send_queue by this call. -/
def process_chunk (lib : LangLib) (engine : Option String → EngOutcome)
    (isoLang : Option String) (is_retranscribe : Bool) : Except PyExn (List Msg) :=
  match (transcribe_chunk engine isoLang).1 with
  | .error e => .error e
  | .ok r =>
    if r.text = "" then .ok []
    else
      match r.language with
      | none => .ok [Msg.partialMsg r.text none is_retranscribe]
      | some dl =>
        match LanguageConverter.convert lib dl "whisper" "libretranslate" with
        | .ok libreLang => .ok [Msg.partialMsg r.text libreLang is_retranscribe]
        | .error (.runtimeError _) => .ok []
        | .error e => .error e

/-- The sender loop (lines 217-224) applied to the finite sequence of items
that are ever put on send_queue, in FIFO order.  Queue items are Option Msg
because the loop tests `if msg is None: break`.  First component: the
messages actually passed to safe_send, in order; second component: whether
the loop terminated (hit the break) after consuming the sequence — when it
is false the loop is still blocked in `await send_queue.get()`. -/
def sender : List (Option Msg) → List Msg × Bool
  | [] => ([], false)
  | none :: _ => ([], true)
  | some m :: rest => (m :: (sender rest).1, (sender rest).2)

/-- The complete sequence of items put on send_queue over a session
(finally block, lines 254-259): the producer tasks each put partial
messages; then, after `await asyncio.gather(*active_tasks)` succeeds, the
coordinator puts the terminal dict.  If the gather re-raises a task fault,
the put on line 258 is skipped, which the taskFault flag captures.  A None
item is never put by any path. -/
def sessionQueueItems (producerMsgs : List Msg) (taskFault : Bool) : List (Option Msg) :=
  producerMsgs.map some ++ (if taskFault then [] else [some Msg.done])

/-- The messages a session delivers to safe_send, in order. -/
def sessionSent (producerMsgs : List Msg) (taskFault : Bool) : List Msg :=
  (sender (sessionQueueItems producerMsgs taskFault)).1

/-- Number of terminal done messages in a sent sequence. -/
def doneCount (l : List Msg) : Nat :=
  l.countP (fun m => m.isDone)

/-! ## The dual-window buffer management of the ingest loop (lines 227-250).

Buffers are Python byte strings: List Nat, one entry per byte.  numpy
reinterpretation as int16 pairs consecutive bytes (little endian); the
subsequent float32 division by 32768 is a bijection on sample values and is
dropped, so a window is a list of int16 sample values. -/

/-- One int16 sample from two bytes (np.frombuffer, little endian). -/
def int16OfBytes (lo hi : Nat) : Int :=
  let u := lo % 256 + 256 * (hi % 256)
  if u < 32768 then (u : Int) else (u : Int) - 65536

/-- np.frombuffer(buf, dtype=np.int16): the sample sequence of a byte
buffer.  (numpy requires an even byte count; every buffer the code builds
from whole int16 messages is even, and a trailing odd byte is ignored
here.) -/
def toSamples : List Nat → List Int
  | [] => []
  | [_] => []
  | lo :: hi :: rest => int16OfBytes lo hi :: toSamples rest

/-- Python slice b[-n:] for n > 0: the last min n (length) elements. -/
def takeLast (n : Nat) (l : List α) : List α :=
  l.drop (l.length - n)

/-- The two per-session byte accumulators of the ingest loop. -/
structure SessionBuffers where
  audio_buffer : List Nat
  sliding_buffer : List Nat
  deriving DecidableEq

def initBuffers : SessionBuffers := ⟨[], []⟩

/-- A window handed to a dispatched task, with its is_retranscribe flag. -/
structure Emitted where
  window : List Int
  isRetranscribe : Bool
  deriving DecidableEq

/-- One iteration of the ingest loop body (lines 228-250) on one received
byte message: append to both accumulators; if the short sample count
reaches CHUNK_SIZE, dispatch the trailing CHUNK_SIZE samples and truncate
the byte buffer to its last OVERLAP_SIZE bytes; independently, if the
sliding BYTE length reaches RETRANSCRIBE_SIZE, dispatch the entire sliding
buffer as samples and truncate it to its last OVERLAP_SIZE bytes.  Each
test is an if, not a loop, so each fires at most once per message. -/
def ingestStep (s : SessionBuffers) (data : List Nat) : SessionBuffers × List Emitted :=
  let audio1 := s.audio_buffer ++ data
  let sliding1 := s.sliding_buffer ++ data
  let audio_np := toSamples audio1
  ({ audio_buffer :=
      if CHUNK_SIZE ≤ audio_np.length then takeLast OVERLAP_SIZE audio1 else audio1,
     sliding_buffer :=
      if RETRANSCRIBE_SIZE ≤ sliding1.length then takeLast OVERLAP_SIZE sliding1
      else sliding1 },
   (if CHUNK_SIZE ≤ audio_np.length then [⟨takeLast CHUNK_SIZE audio_np, false⟩] else [])
     ++ (if RETRANSCRIBE_SIZE ≤ sliding1.length then [⟨toSamples sliding1, true⟩] else []))

/-- The ingest loop over a sequence of received byte messages, collecting
every dispatched window in dispatch order. -/
def ingestRun (s : SessionBuffers) : List (List Nat) → SessionBuffers × List Emitted
  | [] => (s, [])
  | d :: ds =>
    let r := ingestStep s d
    let rest := ingestRun r.1 ds
    (rest.1, r.2 ++ rest.2)

/-- Query-parameter lookup with default: ws.query_params.get(key, dflt). -/
def query_params_get (params : List (String × String)) (key dflt : String) : String :=
  match params.lookup key with
  | some v => v
  | none => dflt

/-- Session-open language selection (lines 208-209): the lang parameter
defaults to "en"; the auto sentinel maps to None, anything else is
projected into the whisper vocabulary (a conversion failure would
propagate out of the handler). -/
def sessionIsoLang (lib : LangLib) (params : List (String × String)) :
    Except PyExn (Option String) :=
  let input_lang := query_params_get params "lang" "en"
  if input_lang = "auto" then .ok none
  else LanguageConverter.convert lib input_lang "libretranslate" "whisper"

/-- An engine that always fails with an engine-internal RuntimeError. -/
def engBoom : Option String → EngOutcome :=
  fun _ => .raise (.runtimeError "boom")

/-- An engine that always raises a ValueError unrelated to the language. -/
def engBadValue : Option String → EngOutcome :=
  fun _ => .raise (.valueError "beam size must be positive")

/-- An engine that rejects any language hint as invalid but succeeds when
invoked with no hint (auto-detect). -/
def engRejectHint : Option String → EngOutcome :=
  fun h =>
    match h with
    | some _ => .raise (.valueError "invalid language xx")
    | none => .ok ["bonjour"] "fr"

/-! ## Supporting lemmas -/

theorem toSamples_length : ∀ b : List Nat, (toSamples b).length = b.length / 2
  | [] => by simp [toSamples]
  | [_] => by simp [toSamples]
  | _ :: _ :: rest => by
    have ih := toSamples_length rest
    simp only [toSamples, List.length_cons]
    omega

theorem takeLast_length (n : Nat) (l : List α) : (takeLast n l).length = min n l.length := by
  simp only [takeLast, List.length_drop]
  omega

theorem ingestStep_audio_length_lt (s : SessionBuffers) (d : List Nat) :
    (ingestStep s d).1.audio_buffer.length < 2 * CHUNK_SIZE := by
  by_cases h : CHUNK_SIZE ≤ (toSamples (s.audio_buffer ++ d)).length
  · simp only [ingestStep, if_pos h]
    rw [takeLast_length]
    simp only [OVERLAP_SIZE, CHUNK_SIZE, SAMPLE_RATE, CHUNK_DURATION_SEC]
    omega
  · simp only [ingestStep, if_neg h]
    rw [toSamples_length] at h
    simp only [CHUNK_SIZE, SAMPLE_RATE, CHUNK_DURATION_SEC] at h ⊢
    omega

theorem ingestRun_audio_length_lt : ∀ (ds : List (List Nat)) (s : SessionBuffers),
    s.audio_buffer.length < 2 * CHUNK_SIZE →
    (ingestRun s ds).1.audio_buffer.length < 2 * CHUNK_SIZE
  | [], _, h => h
  | d :: ds, s, _ => by
    simp only [ingestRun]
    exact ingestRun_audio_length_lt ds _ (ingestStep_audio_length_lt s d)

theorem ingestStep_short_windows (s : SessionBuffers) (d : List Nat) :
    (ingestStep s d).2.filter (fun e => !e.isRetranscribe) =
      if CHUNK_SIZE ≤ (toSamples (s.audio_buffer ++ d)).length then
        [⟨takeLast CHUNK_SIZE (toSamples (s.audio_buffer ++ d)), false⟩]
      else [] := by
  by_cases h : CHUNK_SIZE ≤ (toSamples (s.audio_buffer ++ d)).length
    <;> by_cases h2 : RETRANSCRIBE_SIZE ≤ (s.sliding_buffer ++ d).length
    <;> simp [ingestStep, h, h2]

theorem ingestStep_windows (s : SessionBuffers) (d : List Nat) :
    (ingestStep s d).2 =
      (if CHUNK_SIZE ≤ (toSamples (s.audio_buffer ++ d)).length then
        [⟨takeLast CHUNK_SIZE (toSamples (s.audio_buffer ++ d)), false⟩]
      else [])
      ++ (if RETRANSCRIBE_SIZE ≤ (s.sliding_buffer ++ d).length then
        [⟨toSamples (s.sliding_buffer ++ d), true⟩]
      else []) := rfl

theorem ingestStep_sliding (s : SessionBuffers) (d : List Nat) :
    (ingestStep s d).1.sliding_buffer =
      if RETRANSCRIBE_SIZE ≤ (s.sliding_buffer ++ d).length then
        takeLast OVERLAP_SIZE (s.sliding_buffer ++ d)
      else s.sliding_buffer ++ d := rfl

theorem ingestStep_audio (s : SessionBuffers) (d : List Nat) :
    (ingestStep s d).1.audio_buffer =
      if CHUNK_SIZE ≤ (toSamples (s.audio_buffer ++ d)).length then
        takeLast OVERLAP_SIZE (s.audio_buffer ++ d)
      else s.audio_buffer ++ d := rfl

/-! ## Claims about the Dual-Window Buffer Manager -/

/-- Claim C3.  The claim states that a long (retranscription) window becomes
ready exactly when the long accumulator holds at least
retranscribeSec × sampleRate samples (10 s of 16 kHz audio), truncating to
the last overlap samples.  The code instead compares the BYTE length of the
sliding buffer with RETRANSCRIBE_SIZE (a sample count), so on a session
whose first binary message holds 160000 bytes the long window fires while
the accumulator holds only 80000 samples (5 s), and afterwards the retained
sliding buffer holds only OVERLAP_SIZE bytes, that is half the overlap
sample count. -/
theorem long_window_fires_at_five_seconds :
    ((ingestStep initBuffers (List.replicate 160000 0)).2.map
        (fun e => (e.isRetranscribe, e.window.length)))
      = [(false, CHUNK_SIZE), (true, 80000)]
    ∧ 80000 < RETRANSCRIBE_SEC * SAMPLE_RATE
    ∧ (toSamples ((ingestStep initBuffers
        (List.replicate 160000 0)).1.sliding_buffer)).length = OVERLAP_SIZE / 2
    ∧ ¬ (OVERLAP_SIZE / 2 = OVERLAP_SIZE) := by
  have hlen : (List.replicate 160000 (0 : Nat)).length = 160000 :=
    List.length_replicate 160000 0
  have hsam : (toSamples (List.replicate 160000 (0 : Nat))).length = 80000 := by
    rw [toSamples_length, hlen]
  have hshort : CHUNK_SIZE ≤ (toSamples (List.replicate 160000 (0 : Nat))).length := by
    rw [hsam]; norm_num [CHUNK_SIZE, SAMPLE_RATE, CHUNK_DURATION_SEC]
  have hlong : RETRANSCRIBE_SIZE ≤ (List.replicate 160000 (0 : Nat)).length := by
    rw [hlen]; norm_num [RETRANSCRIBE_SIZE, SAMPLE_RATE, RETRANSCRIBE_SEC]
  refine ⟨?_, by norm_num [RETRANSCRIBE_SEC, SAMPLE_RATE], ?_,
    by norm_num [OVERLAP_SIZE]⟩
  · rw [ingestStep_windows]
    simp only [initBuffers, List.nil_append]
    rw [if_pos hshort, if_pos hlong]
    simp only [List.singleton_append, List.map_cons, List.map_nil]
    rw [takeLast_length, hsam]
    norm_num [CHUNK_SIZE, SAMPLE_RATE, CHUNK_DURATION_SEC]
  · rw [ingestStep_sliding]
    simp only [initBuffers, List.nil_append]
    rw [if_pos hlong]
    rw [toSamples_length, takeLast_length, hlen]
    norm_num [OVERLAP_SIZE]

/-- Claim C4 counterexample.  Feeding shortTarget + overlap samples, that is
67200 bytes, in one call emits exactly one short window (concrete scenario
2 of the spec), after which the byte buffer holds OVERLAP_SIZE bytes = 800
samples, not overlapSize = 1600 samples as the claim states. -/
theorem overlap_retention_counterexample :
    ((ingestStep initBuffers (List.replicate 67200 0)).2.filter
        (fun e => !e.isRetranscribe)).length = 1
    ∧ (toSamples ((ingestStep initBuffers
        (List.replicate 67200 0)).1.audio_buffer)).length = 800
    ∧ ¬ ((800 : Nat) = OVERLAP_SIZE) := by
  have hlen : (List.replicate 67200 (0 : Nat)).length = 67200 :=
    List.length_replicate 67200 0
  have hsam : (toSamples (List.replicate 67200 (0 : Nat))).length = 33600 := by
    rw [toSamples_length, hlen]
  have hshort : CHUNK_SIZE ≤ (toSamples (List.replicate 67200 (0 : Nat))).length := by
    rw [hsam]; norm_num [CHUNK_SIZE, SAMPLE_RATE, CHUNK_DURATION_SEC]
  refine ⟨?_, ?_, by norm_num [OVERLAP_SIZE]⟩
  · rw [ingestStep_short_windows]
    simp only [initBuffers, List.nil_append]
    rw [if_pos hshort]
    rfl
  · rw [ingestStep_audio]
    simp only [initBuffers, List.nil_append]
    rw [if_pos hshort]
    rw [toSamples_length, takeLast_length, hlen]
    norm_num [OVERLAP_SIZE]

/-- Claim C4, amended.  For every sequence of ingest calls the short buffer
stays below 2 × shortTarget samples after processing (no unbounded
growth); immediately after a short-window emission the buffer holds exactly
OVERLAP_SIZE BYTES, which is overlapSize / 2 = 800 samples rather than the
overlapSize samples the claim states. -/
theorem short_buffer_invariant : ∀ (ds : List (List Nat)) (d : List Nat),
    (toSamples (ingestRun initBuffers ds).1.audio_buffer).length < 2 * CHUNK_SIZE
    ∧ ((ingestStep (ingestRun initBuffers ds).1 d).2.filter
          (fun e => !e.isRetranscribe) ≠ [] →
        (ingestStep (ingestRun initBuffers ds).1 d).1.audio_buffer.length = OVERLAP_SIZE) := by
  intro ds d
  constructor
  · have h := ingestRun_audio_length_lt ds initBuffers
      (by simp [initBuffers, CHUNK_SIZE, SAMPLE_RATE, CHUNK_DURATION_SEC])
    rw [toSamples_length]
    omega
  · intro hne
    rw [ingestStep_short_windows] at hne
    by_cases h : CHUNK_SIZE ≤
        (toSamples ((ingestRun initBuffers ds).1.audio_buffer ++ d)).length
    · rw [ingestStep_audio, if_pos h]
      rw [takeLast_length]
      rw [toSamples_length] at h
      simp only [OVERLAP_SIZE, CHUNK_SIZE, SAMPLE_RATE, CHUNK_DURATION_SEC] at h ⊢
      omega
    · simp [if_neg h] at hne

/-- Witness for short_buffer_invariant: one 67200-byte ingest from the
initial state emits a short window and leaves OVERLAP_SIZE bytes. -/
theorem short_buffer_invariant_witness :
    ((ingestStep (ingestRun initBuffers []).1 (List.replicate 67200 0)).2.filter
        (fun e => !e.isRetranscribe) ≠ [])
    ∧ (ingestStep (ingestRun initBuffers []).1 (List.replicate 67200 0)).1.audio_buffer.length
        = OVERLAP_SIZE :=
  ⟨by
      have hshort : CHUNK_SIZE ≤ (toSamples (List.replicate 67200 (0 : Nat))).length := by
        rw [toSamples_length, List.length_replicate]
        norm_num [CHUNK_SIZE, SAMPLE_RATE, CHUNK_DURATION_SEC]
      have e1 : ((ingestRun initBuffers ([] : List (List Nat))).1.audio_buffer
          ++ List.replicate 67200 (0 : Nat)) = List.replicate 67200 (0 : Nat) := rfl
      rw [ingestStep_short_windows, e1, if_pos hshort]
      exact List.cons_ne_nil _ _,
    (short_buffer_invariant [] (List.replicate 67200 0)).2 (by
      have hshort : CHUNK_SIZE ≤ (toSamples (List.replicate 67200 (0 : Nat))).length := by
        rw [toSamples_length, List.length_replicate]
        norm_num [CHUNK_SIZE, SAMPLE_RATE, CHUNK_DURATION_SEC]
      have e1 : ((ingestRun initBuffers ([] : List (List Nat))).1.audio_buffer
          ++ List.replicate 67200 (0 : Nat)) = List.replicate 67200 (0 : Nat) := rfl
      rw [ingestStep_short_windows, e1, if_pos hshort]
      exact List.cons_ne_nil _ _)⟩

/-- Claim C5 counterexample.  A single 128000-byte ingest call supplies
enough bytes for the short-window readiness condition to hold twice (it
exceeds 2 × (2 × CHUNK_SIZE) - OVERLAP_SIZE bytes), yet exactly one short
window is emitted, not two: the readiness test is an if, not a loop. -/
theorem burst_counterexample :
    2 * (2 * CHUNK_SIZE) - OVERLAP_SIZE ≤ 128000
    ∧ ((ingestStep initBuffers (List.replicate 128000 0)).2.filter
        (fun e => !e.isRetranscribe)).length = 1
    ∧ ¬ (((ingestStep initBuffers (List.replicate 128000 0)).2.filter
        (fun e => !e.isRetranscribe)).length = 2) := by
  have hshort : CHUNK_SIZE ≤ (toSamples (List.replicate 128000 (0 : Nat))).length := by
    rw [toSamples_length, List.length_replicate]
    norm_num [CHUNK_SIZE, SAMPLE_RATE, CHUNK_DURATION_SEC]
  have hfil : ((ingestStep initBuffers (List.replicate 128000 0)).2.filter
      (fun e => !e.isRetranscribe)).length = 1 := by
    rw [ingestStep_short_windows]
    simp only [initBuffers, List.nil_append]
    rw [if_pos hshort]
    rfl
  exact ⟨by norm_num [CHUNK_SIZE, OVERLAP_SIZE, SAMPLE_RATE, CHUNK_DURATION_SEC],
    hfil, by rw [hfil]; norm_num⟩

/-- Claim C5, amended.  The ingest loop body tests short-window readiness
with an if, not a loop: a single ingest call emits at most one short
window, and when the accumulated bytes reach 2 × CHUNK_SIZE it emits
exactly one, the trailing CHUNK_SIZE samples; the surplus of a burst
beyond the retained overlap is discarded, never emitted as a second
window. -/
theorem at_most_one_short_window_per_ingest : ∀ (s : SessionBuffers) (d : List Nat),
    ((ingestStep s d).2.filter (fun e => !e.isRetranscribe)).length ≤ 1
    ∧ (2 * CHUNK_SIZE ≤ (s.audio_buffer ++ d).length →
        (ingestStep s d).2.filter (fun e => !e.isRetranscribe)
          = [⟨takeLast CHUNK_SIZE (toSamples (s.audio_buffer ++ d)), false⟩]) := by
  intro s d
  rw [ingestStep_short_windows]
  constructor
  · by_cases h : CHUNK_SIZE ≤ (toSamples (s.audio_buffer ++ d)).length <;> simp [h]
  · intro hb
    have h : CHUNK_SIZE ≤ (toSamples (s.audio_buffer ++ d)).length := by
      rw [toSamples_length]
      simp only [CHUNK_SIZE, SAMPLE_RATE, CHUNK_DURATION_SEC] at hb ⊢
      omega
    rw [if_pos h]

/-- Witness for at_most_one_short_window_per_ingest at the concrete
128000-byte burst. -/
theorem at_most_one_short_window_per_ingest_witness :
    2 * CHUNK_SIZE ≤ (initBuffers.audio_buffer ++ List.replicate 128000 0).length
    ∧ (ingestStep initBuffers (List.replicate 128000 0)).2.filter
          (fun e => !e.isRetranscribe)
        = [⟨takeLast CHUNK_SIZE
            (toSamples (initBuffers.audio_buffer ++ List.replicate 128000 0)), false⟩] :=
  ⟨by
      simp only [initBuffers, List.nil_append, List.length_replicate]
      norm_num [CHUNK_SIZE, SAMPLE_RATE, CHUNK_DURATION_SEC],
    (at_most_one_short_window_per_ingest initBuffers (List.replicate 128000 0)).2
      (by
        simp only [initBuffers, List.nil_append, List.length_replicate]
        norm_num [CHUNK_SIZE, SAMPLE_RATE, CHUNK_DURATION_SEC])⟩

/-! ## Supporting lemmas for the sender and the task pipeline -/

theorem sender_map_some (l : List Msg) (rest : List (Option Msg)) :
    sender (l.map some ++ rest) = (l ++ (sender rest).1, (sender rest).2) := by
  induction l with
  | nil => simp [sender]
  | cons m l ih => simp [sender, ih]

theorem process_chunk_messages_not_done (lib : LangLib)
    (engine : Option String → EngOutcome) (isoLang : Option String) (retr : Bool)
    (ms : List Msg) (h : process_chunk lib engine isoLang retr = .ok ms) :
    ∀ m ∈ ms, Msg.isDone m = false := by
  unfold process_chunk at h
  split at h
  · exact absurd h (by simp)
  · split at h
    · injection h with h2
      subst h2
      simp
    · split at h
      · injection h with h2
        subst h2
        intro m hm
        simp only [List.mem_singleton] at hm
        subst hm
        rfl
      · split at h
        · injection h with h2
          subst h2
          intro m hm
          simp only [List.mem_singleton] at hm
          subst hm
          rfl
        · injection h with h2
          subst h2
          simp
        · exact absurd h (by simp)

/-! ## Claims about the Ordered Result Sender and session shutdown -/

/-- Claim C1.  The claim states that the drain loop of the sender terminates
after the terminal done event is enqueued.  It does not: the loop on lines
217-222 breaks only when it dequeues None, while the shutdown path on line
258 enqueues the dict with event done, and no path ever enqueues None; so
for every sequence of producer messages, with or without a task fault, the
sender never hits its break and `await sender_task` on line 259 never
completes. -/
theorem sender_loop_never_breaks :
    ∀ (producerMsgs : List Msg) (taskFault : Bool),
    (sender (sessionQueueItems producerMsgs taskFault)).2 = false := by
  intro ps fault
  simp only [sessionQueueItems, sender_map_some]
  cases fault <;> simp [sender]

/-- Claim C2 counterexample.  On the close path where awaiting the
outstanding tasks re-raises a task fault (reachable because transcribe_chunk
re-raises a non-language ValueError), the enqueue of the done event in the
finally block is skipped, so the session sends no done message at all: with
no producer messages the sent sequence is empty, refuting that exactly one
done message is sent and is last on every reachable close path. -/
theorem done_missing_on_fault_path :
    sessionSent [] true = []
    ∧ ¬ (doneCount (sessionSent [] true) = 1
        ∧ (sessionSent [] true).getLast? = some Msg.done) := by
  refine ⟨rfl, ?_⟩
  rw [show sessionSent [] true = [] from rfl]
  simp [doneCount]

/-- Claim C2, amended.  On every close path where awaiting the outstanding
tasks does not re-raise (disconnect mid-stream, explicit close), exactly
one done message is sent and it is the last message sent; on the
fatal-fault close path, where the gather re-raises before the terminal
enqueue, no done message is sent at all. -/
theorem done_terminal_without_fault :
    ∀ ps : List Msg, (∀ m ∈ ps, Msg.isDone m = false) →
    doneCount (sessionSent ps false) = 1
    ∧ (sessionSent ps false).getLast? = some Msg.done
    ∧ doneCount (sessionSent ps true) = 0 := by
  intro ps h
  have e1 : sessionSent ps false = ps ++ [Msg.done] := by
    simp [sessionSent, sessionQueueItems, sender_map_some, sender]
  have e2 : sessionSent ps true = ps := by
    have h0 := sender_map_some ps []
    rw [List.append_nil] at h0
    simp [sessionSent, sessionQueueItems, h0, sender]
  have hzero : ps.countP (fun m => m.isDone) = 0 := by
    rw [List.countP_eq_zero]
    intro a ha
    simp [h a ha]
  refine ⟨?_, ?_, ?_⟩
  · rw [e1, doneCount, List.countP_append, hzero]
    simp [List.countP_cons, Msg.isDone]
  · rw [e1]
    simp
  · rw [e2, doneCount, hzero]

/-- Witness for done_terminal_without_fault with one producer message. -/
theorem done_terminal_without_fault_witness :
    (∀ m ∈ [Msg.partialMsg "hello" (some "en") false], Msg.isDone m = false)
    ∧ (doneCount (sessionSent [Msg.partialMsg "hello" (some "en") false] false) = 1
      ∧ (sessionSent [Msg.partialMsg "hello" (some "en") false] false).getLast?
          = some Msg.done
      ∧ doneCount (sessionSent [Msg.partialMsg "hello" (some "en") false] true) = 0) :=
  ⟨by decide, done_terminal_without_fault _ (by decide)⟩
/-! ## Claims about the Inference Adapter failure policy -/

/-- Claim C6 counterexample.  An engine-internal RuntimeError on one window
produces no message at all for that window: transcribe_chunk captures the
failure as a result with empty text and an error field, and process_chunk
suppresses every empty-text result, so no error dict is ever enqueued —
refuting that an error message is sent to the client for that window. -/
theorem engine_error_silently_dropped :
    process_chunk langcodesLib engBoom (some "en") false = Except.ok []
    ∧ ¬ (∃ s ms, process_chunk langcodesLib engBoom (some "en") false = Except.ok ms
        ∧ Msg.errorMsg s ∈ ms) := by
  refine ⟨rfl, ?_⟩
  rintro ⟨s, ms, hms, hmem⟩
  rw [show process_chunk langcodesLib engBoom (some "en") false = Except.ok []
    from rfl] at hms
  injection hms with h2
  subst h2
  exact absurd hmem (List.not_mem_nil _)

/-- Claim C6, amended.  Whenever the engine fails internally on a single
window with a non-ValueError exception, the failure is captured as an
error result with empty text, and no message at all is enqueued for that
window (the error is silently dropped, not reported); process_chunk
returns normally, so the session continues. -/
theorem engine_fault_yields_no_message :
    ∀ (lib : LangLib) (engine : Option String → EngOutcome) (isoLang : Option String)
      (retr : Bool) (e : PyExn),
    engine (truthyHint isoLang) = EngOutcome.raise e → e.isValueError = false →
    (transcribe_chunk engine isoLang).1 = Except.ok ⟨"", isoLang, some e.msg⟩
    ∧ process_chunk lib engine isoLang retr = Except.ok [] := by
  intro lib engine isoLang retr e he hv
  have ht : transcribe_chunk engine isoLang
      = (Except.ok ⟨"", isoLang, some e.msg⟩, [truthyHint isoLang]) := by
    unfold transcribe_chunk
    rw [he]
    simp [hv]
  refine ⟨by rw [ht], ?_⟩
  unfold process_chunk
  rw [ht]
  rfl

/-- Witness for engine_fault_yields_no_message at the concrete failing
engine. -/
theorem engine_fault_yields_no_message_witness :
    engBoom (truthyHint (some "en")) = EngOutcome.raise (PyExn.runtimeError "boom")
    ∧ ((PyExn.runtimeError "boom").isValueError = false)
    ∧ ((transcribe_chunk engBoom (some "en")).1
        = Except.ok ⟨"", some "en", some "boom"⟩
      ∧ process_chunk langcodesLib engBoom (some "en") false = Except.ok []) :=
  ⟨rfl, rfl,
    engine_fault_yields_no_message langcodesLib engBoom (some "en") false
      (PyExn.runtimeError "boom") rfl rfl⟩

/-- Claim C7 counterexample.  A ValueError whose message does not mention
the language (line 171 re-raises it) propagates out of transcribe_chunk as
an unhandled fault instead of being captured as an error result — refuting
that every engine failure other than a rejected language hint is captured
and never propagates. -/
theorem nonlanguage_value_error_propagates :
    (transcribe_chunk engBadValue (some "en")).1
      = Except.error (PyExn.valueError "beam size must be positive")
    ∧ ¬ (∃ r, (transcribe_chunk engBadValue (some "en")).1 = Except.ok r) := by
  refine ⟨rfl, ?_⟩
  rintro ⟨r, hr⟩
  rw [show (transcribe_chunk engBadValue (some "en")).1
      = Except.error (PyExn.valueError "beam size must be positive") from rfl] at hr
  exact Except.noConfusion hr

/-- Claim C7, amended.  Every engine failure that is not a ValueError is
captured as an error result without retrying (exactly one engine call); a
ValueError whose message does not mention the language is re-raised and
propagates out of transcribe_chunk as a task fault. -/
theorem engine_failure_policy :
    ∀ (engine : Option String → EngOutcome) (isoLang : Option String) (e : PyExn),
    engine (truthyHint isoLang) = EngOutcome.raise e →
    (e.isValueError = false →
      transcribe_chunk engine isoLang
        = (Except.ok ⟨"", isoLang, some e.msg⟩, [truthyHint isoLang]))
    ∧ (e.isValueError = true → mentionsLanguage e.msg = false →
      (transcribe_chunk engine isoLang).1 = Except.error e) := by
  intro engine isoLang e he
  constructor
  · intro hv
    unfold transcribe_chunk
    rw [he]
    simp [hv]
  · intro hv hm
    unfold transcribe_chunk
    rw [he]
    simp [hv, hm]

/-- Witness for engine_failure_policy: both branches at concrete engines. -/
theorem engine_failure_policy_witness :
    transcribe_chunk engBoom (some "en")
      = (Except.ok ⟨"", some "en", some "boom"⟩, [some "en"])
    ∧ (transcribe_chunk engBadValue (some "en")).1
      = Except.error (PyExn.valueError "beam size must be positive") :=
  ⟨(engine_failure_policy engBoom (some "en") (PyExn.runtimeError "boom") rfl).1 rfl,
   (engine_failure_policy engBadValue (some "en")
      (PyExn.valueError "beam size must be positive") rfl).2 rfl (by decide)⟩

/-- Claim C8.  When the engine rejects the language hint as
invalid/unsupported (a ValueError mentioning the language), transcribe
invokes the engine exactly twice: once with the projected hint and once
with no hint — and in every case the engine is invoked at most twice,
never in a loop. -/
theorem fallback_at_most_two_calls :
    ∀ (engine : Option String → EngOutcome) (isoLang : Option String),
    (transcribe_chunk engine isoLang).2.length ≤ 2
    ∧ ∀ e : PyExn, engine (truthyHint isoLang) = EngOutcome.raise e →
        e.isValueError = true → mentionsLanguage e.msg = true →
        (transcribe_chunk engine isoLang).2 = [truthyHint isoLang, none] := by
  intro engine isoLang
  constructor
  · unfold transcribe_chunk
    cases h : engine (truthyHint isoLang) with
    | ok segs lang => simp
    | raise e =>
      by_cases hv : e.isValueError <;> by_cases hm : mentionsLanguage e.msg
      · simp only [hv, hm, if_true]
        cases engine none <;> simp
      · simp [hv, hm]
      · simp [hv, hm]
      · simp [hv, hm]
  · intro e he hv hm
    unfold transcribe_chunk
    rw [he]
    simp [hv, hm]
    cases engine none <;> simp

/-- Witness for fallback_at_most_two_calls at an engine that rejects the
hint and succeeds on auto-detect. -/
theorem fallback_at_most_two_calls_witness :
    engRejectHint (truthyHint (some "xx"))
      = EngOutcome.raise (PyExn.valueError "invalid language xx")
    ∧ (transcribe_chunk engRejectHint (some "xx")).2 = [some "xx", none] :=
  ⟨rfl,
    (fallback_at_most_two_calls engRejectHint (some "xx")).2
      (PyExn.valueError "invalid language xx") rfl rfl (by decide)⟩
/-! ## Claims about the Language Code Normalizer -/

/-- Claim C9 counterexample.  A malformed input such as a bare exclamation
mark survives normalize_bcp47 unchanged (the parse failure there is
caught), but to_whisper then calls the tag parser unguarded, so
convert(code, libretranslate, whisper) raises the parse error instead of
returning a best-effort value — refuting that conversion is total and
never rejects malformed input. -/
theorem convert_raises_on_malformed :
    LanguageConverter.convert langcodesLib "!" "libretranslate" "whisper"
      = Except.error (PyExn.languageTagError "!")
    ∧ ¬ (∃ v, LanguageConverter.convert langcodesLib "!" "libretranslate" "whisper"
        = Except.ok v) := by
  refine ⟨rfl, ?_⟩
  rintro ⟨v, hv⟩
  rw [show LanguageConverter.convert langcodesLib "!" "libretranslate" "whisper"
      = Except.error (PyExn.languageTagError "!") from rfl] at hv
  exact Except.noConfusion hv

/-- Claim C9, amended.  Conversion is pure, and for the output vocabularies
libretranslate, bcp47 and tesseract it is total for every input string and
every behaviour of the underlying libraries (those paths catch every
library exception); for the whisper output vocabulary a malformed input
that the tag parser rejects, and that no exception table covers, makes
convert propagate the parse error instead of returning a value. -/
theorem convert_totality_amended :
    (∀ (lib : LangLib) (code insrc : String),
      insrc = "langdetect" ∨ insrc = "libretranslate" ∨ insrc = "whisper"
        ∨ insrc = "bcp47" →
      (∃ v, LanguageConverter.convert lib code insrc "libretranslate" = Except.ok v)
      ∧ (∃ v, LanguageConverter.convert lib code insrc "bcp47" = Except.ok v)
      ∧ (∃ v, LanguageConverter.convert lib code insrc "tesseract" = Except.ok v))
    ∧ LanguageConverter.convert langcodesLib "!" "libretranslate" "whisper"
        = Except.error (PyExn.languageTagError "!") := by
  refine ⟨?_, rfl⟩
  intro lib code insrc h
  rcases h with h | h | h | h <;> subst h <;>
    exact ⟨⟨_, rfl⟩, ⟨_, rfl⟩, ⟨_, rfl⟩⟩

/-- Witness for convert_totality_amended at a concrete source vocabulary
and input. -/
theorem convert_totality_amended_witness :
    (("libretranslate" : String) = "langdetect"
      ∨ ("libretranslate" : String) = "libretranslate"
      ∨ ("libretranslate" : String) = "whisper"
      ∨ ("libretranslate" : String) = "bcp47")
    ∧ ((∃ v, LanguageConverter.convert langcodesLib "pt" "libretranslate" "libretranslate"
          = Except.ok v)
      ∧ (∃ v, LanguageConverter.convert langcodesLib "pt" "libretranslate" "bcp47"
          = Except.ok v)
      ∧ (∃ v, LanguageConverter.convert langcodesLib "pt" "libretranslate" "tesseract"
          = Except.ok v)) :=
  ⟨Or.inr (Or.inl rfl),
    convert_totality_amended.1 langcodesLib "pt" "libretranslate" (Or.inr (Or.inl rfl))⟩

/-! ## Claim about the session-open language selection -/

/-- Claim C10.  With no lang query parameter the hint defaults to the
string en projected through convert(en, libretranslate, whisper), not to
the auto-detect sentinel None; the sentinel arises exactly when the
parameter equals auto, since the projection through the whisper output
never returns None. -/
theorem default_language_is_english :
    ∀ (lib : LangLib) (params : List (String × String)),
    (params.lookup "lang" = none →
      sessionIsoLang lib params
        = LanguageConverter.convert lib "en" "libretranslate" "whisper")
    ∧ (params.lookup "lang" = some "auto" → sessionIsoLang lib params = Except.ok none)
    ∧ (∀ v, params.lookup "lang" = some v → v ≠ "auto" →
        sessionIsoLang lib params
          = LanguageConverter.convert lib v "libretranslate" "whisper")
    ∧ (∀ c, LanguageConverter.convert lib c "libretranslate" "whisper" ≠ Except.ok none)
    ∧ sessionIsoLang langcodesLib [] = Except.ok (some "en") := by
  intro lib params
  refine ⟨?_, ?_, ?_, ?_, rfl⟩
  · intro h
    unfold sessionIsoLang query_params_get
    rw [h]
    simp
  · intro h
    unfold sessionIsoLang query_params_get
    rw [h]
    simp
  · intro v h hv
    unfold sessionIsoLang query_params_get
    rw [h]
    simp [hv]
  · intro c
    show (LanguageConverter.to_whisper lib
        (LanguageConverter.normalize_bcp47 lib c)).map some ≠ Except.ok none
    cases LanguageConverter.to_whisper lib (LanguageConverter.normalize_bcp47 lib c) <;>
      simp [Except.map]

/-- Witness for default_language_is_english at a concrete parameter list. -/
theorem default_language_is_english_witness :
    ([(("lang" : String), ("fr" : String))].lookup "lang" = some "fr")
    ∧ (("fr" : String) ≠ "auto")
    ∧ sessionIsoLang langcodesLib [("lang", "fr")]
        = LanguageConverter.convert langcodesLib "fr" "libretranslate" "whisper" :=
  ⟨rfl, by decide,
    (default_language_is_english langcodesLib [("lang", "fr")]).2.2.1 "fr" rfl (by decide)⟩

end TranslateTranscribe
